import Mathlib

/-!
Verification of the license issuance / validation / revocation / audit
subsystem of the churnvision-admin control plane
(backend/app/services/license_service.py, backend/app/models/license.py,
backend/app/models/tenant.py, backend/app/schemas/license.py).

Shallow embedding conventions:
* `datetime` values are modelled as `Int` seconds since the epoch;
  `timedelta(days = d)` is `d * 86400`.  The several `datetime.utcnow()`
  calls inside one service function are collapsed into a single `now`
  parameter (the calls happen within the same request instant).
* ISO-8601 rendering of a datetime is injective, so result fields that the
  Python code renders with `.isoformat()` keep the `Int` representation.
* The SQLAlchemy session is modelled as an explicit `DB` state record;
  `query(...).filter(...).first()` is `List.find?`, ORM in-place mutation of
  the row returned by `first()` is replacement of the first matching row.
* A JWT is a pair of its claim dictionary (an association list, mirroring
  the Python `payload` dict literal) and its signature segment; `jwt.encode`
  signs with a deterministic MAC of (secret, payload) and `jwt.decode`
  checks that MAC and the embedded `exp` claim (python-jose validates the
  `exp` claim with strict `<` and zero leeway).
* Python `x or y` on strings/lists (None and empty values are falsy) is
  modelled explicitly where it occurs.
-/

deriving instance DecidableEq for Except

namespace ChurnVision

/-- `PricingTier` enum from models/tenant.py. -/
inductive PricingTier where
  | STARTER
  | PROFESSIONAL
  | ENTERPRISE
deriving DecidableEq, Repr

/-- `.value` of the `str`-valued `PricingTier` enum. -/
def PricingTier.value : PricingTier → String
  | .STARTER => "STARTER"
  | .PROFESSIONAL => "PROFESSIONAL"
  | .ENTERPRISE => "ENTERPRISE"

/-- Row of the `tenants` table (the fields the license subsystem reads). -/
structure TenantRow where
  id : Nat
  name : String
  slug : String
  tier : PricingTier
  max_employees : Option Int
  max_users : Option Int
  features_enabled : List String
deriving DecidableEq, Repr

/-- `LLMApiKeys` schema (schemas/license.py). -/
structure LLMApiKeys where
  openai : Option String := none
  anthropic : Option String := none
  google : Option String := none
deriving DecidableEq, Repr

/-- `EmbeddedKeys` schema (schemas/license.py): keys meant to be embedded in
the license JWT for customer use. -/
structure EmbeddedKeys where
  admin_api_key : Option String := none
  llm_api_keys : Option LLMApiKeys := none
deriving DecidableEq, Repr

/-- `LicenseCreate` request schema (schemas/license.py).  Note: neither the
schema nor the service validates `expiration_days`; it is a plain `int`
defaulting to 365. -/
structure LicenseCreate where
  tenant_id : Nat
  expiration_days : Int := 365
  max_employees : Option Int := none
  max_users : Option Int := none
  features : List String := []
  embedded_keys : Option EmbeddedKeys := none
deriving DecidableEq, Repr

/-- A value that can appear in the JWT claim dictionary built by
`generate_license`.  The `keysObj` constructor exists because the
`LicenseCreate` schema carries an `EmbeddedKeys` block that is documented as
"stored in JWT claims"; whether the code ever puts one into a payload is a
question settled by a theorem below, not by the type. -/
inductive JVal where
  | s (v : String)
  | i (n : Int)
  | arr (xs : List String)
  | limitsObj (max_employees max_users : Option Int)
  | keysObj (k : EmbeddedKeys)
deriving DecidableEq, Repr

/-- The claim dictionary of a token: an association list mirroring the
Python `payload` dict. -/
abbrev Payload := List (String × JVal)

/-- Decimal rendering of an integer (kernel-reducible). -/
def intSer (n : Int) : String :=
  if n < 0 then "-" ++ Nat.repr n.natAbs else Nat.repr n.natAbs

/-- Rendering of a nullable integer column value. -/
def optIntSer : Option Int → String
  | none => "null"
  | some n => intSer n

/-- Rendering of a nullable string value. -/
def optStrSer : Option String → String
  | none => "null"
  | some s => "v" ++ s

/-- Rendering of an `EmbeddedKeys` block. -/
def keysSer (k : EmbeddedKeys) : String :=
  optStrSer k.admin_api_key ++ ";" ++
    (match k.llm_api_keys with
     | none => "null"
     | some m => optStrSer m.openai ++ "," ++ optStrSer m.anthropic ++ ","
         ++ optStrSer m.google)

/-- Deterministic serialisation of a claim value, used by the MAC model. -/
def JVal.ser : JVal → String
  | .s v => "s:" ++ v
  | .i n => "i:" ++ intSer n
  | .arr xs => "a:" ++ String.intercalate "\u0001" xs
  | .limitsObj a b => "l:" ++ optIntSer a ++ "," ++ optIntSer b
  | .keysObj k => "k:" ++ keysSer k

/-- Model of the HMAC-SHA256 signature segment produced by
`jwt.encode(payload, secret, HS256)`: a deterministic function of the secret
and the serialised claims.  Verification compares the presented signature
segment with this value, which is all the proofs below rely on. -/
def macSign (secret : String) (p : Payload) : String :=
  secret ++ "#" ++ String.intercalate "\u0002" (p.map fun kv => kv.1 ++ "=" ++ kv.2.ser)

/-- An encoded JWT: its claim set together with its signature segment. -/
structure Token where
  payload : Payload
  sig : String
deriving DecidableEq, Repr

/-- `settings.SECRET_KEY` (core/config.py), process-wide configuration. -/
def SECRET_KEY : String := "dev-secret-key-change-in-production"

/-- `jwt.encode(payload, settings.SECRET_KEY, algorithm="HS256")`. -/
def jwtEncode (secret : String) (p : Payload) : Token :=
  ⟨p, macSign secret p⟩

/-- Outcomes of `jose.jwt.decode`: signature failure / malformed input, or
the embedded `exp` claim of the token having passed.  Both raise `JWTError`
in the Python code. -/
inductive JwtError where
  | badSignature
  | expiredSignature
deriving DecidableEq, Repr

/-- `jwt.decode(license_key, settings.SECRET_KEY, algorithms=["HS256"])`:
verifies the signature and the embedded `exp` claim (strict `<`, no leeway). -/
def jwtDecode (secret : String) (now : Int) (t : Token) : Except JwtError Payload :=
  if t.sig ≠ macSign secret t.payload then
    .error .badSignature
  else
    match t.payload.lookup "exp" with
    | some (.i e) => if e < now then .error .expiredSignature else .ok t.payload
    | _ => .ok t.payload

/-- Row of the `licenses` table (models/license.py). -/
structure LicenseRow where
  id : Nat
  tenant_id : Nat
  key_string : Token
  issued_at : Int
  expires_at : Int
  revoked : Bool
  revoked_at : Option Int
  revocation_reason : Option String
  max_employees : Option Int
  max_users : Option Int
  features : Option (List String)
deriving DecidableEq, Repr

/-- The closed set of audit-action-specific `details` payloads written by
license_service.py. -/
inductive AuditDetails where
  | issued (expiry_days : Int)
  | revoked (reason : String)
  | validated (timestamp : Int) (installation_id hardware_fingerprint : Option String)
  | extended (old_expiry new_expiry : Int) (additional_days : Int)
deriving DecidableEq, Repr

/-- Row of the `license_audit_logs` table (models/license.py). -/
structure AuditEntry where
  license_id : Nat
  action : String
  performed_at : Int
  performed_by : String
  details : AuditDetails
deriving DecidableEq, Repr

/-- The relational store visible to the license subsystem: the tenants,
licenses and audit tables, plus the id generator for new license rows. -/
structure DB where
  tenants : List TenantRow
  licenses : List LicenseRow
  audits : List AuditEntry
  nextLicenseId : Nat
deriving DecidableEq, Repr

/-- In-place ORM mutation of the row returned by `.first()`: replace the
first row with the given id. -/
def updateLicense (ls : List LicenseRow) (id : Nat) (f : LicenseRow → LicenseRow) :
    List LicenseRow :=
  match ls with
  | [] => []
  | l :: rest => if l.id = id then f l :: rest else l :: updateLicense rest id f

/-- JWT claim dictionary built by `generate_license` (license_service.py
lines 45-55): the literal keys of the Python `payload` dict, in order. -/
def licensePayload (tenantSlug : String) (issued_at expires_at : Int)
    (license_in : LicenseCreate) : Payload :=
  [("iss", .s "churnvision.tech"),
   ("sub", .s ("tenant_" ++ tenantSlug)),
   ("iat", .i issued_at),
   ("exp", .i expires_at),
   ("features", .arr license_in.features),
   ("limits", .limitsObj license_in.max_employees license_in.max_users)]

/-- The `License(...)` row constructed by `generate_license`
(license_service.py lines 60-68): snapshot of the issuance parameters plus
the signed token. -/
def issuedRow (licId : Nat) (tenant : TenantRow) (license_in : LicenseCreate)
    (now : Int) : LicenseRow :=
  { id := licId
    tenant_id := tenant.id
    key_string := jwtEncode SECRET_KEY
      (licensePayload tenant.slug now
        (now + license_in.expiration_days * 86400) license_in)
    issued_at := now
    expires_at := now + license_in.expiration_days * 86400
    revoked := false
    revoked_at := none
    revocation_reason := none
    max_employees := license_in.max_employees
    max_users := license_in.max_users
    features := some license_in.features }

/-- `generate_license(db, license_in, performed_by)` (license_service.py
lines 35-82).  Raised `ValueError`s are the `.error` branch; the returned
state is the committed session. -/
def generate_license (db : DB) (license_in : LicenseCreate)
    (performed_by : String) (now : Int) : DB × Except String LicenseRow :=
  match db.tenants.find? (fun t => t.id == license_in.tenant_id) with
  | none => (db, .error "Tenant not found")
  | some tenant =>
    let db_license := issuedRow db.nextLicenseId tenant license_in now
    let audit : AuditEntry :=
      { license_id := db_license.id
        action := "ISSUED"
        performed_at := now
        performed_by := performed_by
        details := .issued license_in.expiration_days }
    ({ db with
        licenses := db.licenses ++ [db_license]
        audits := db.audits ++ [audit]
        nextLicenseId := db.nextLicenseId + 1 },
     .ok db_license)

/-- The in-place field assignments of `revoke_license`
(license_service.py lines 95-97). -/
def revokeMutate (reason : String) (now : Int) (l : LicenseRow) : LicenseRow :=
  { l with revoked := true, revoked_at := some now,
           revocation_reason := some reason }

/-- `revoke_license(db, license_id, reason, performed_by)`
(license_service.py lines 85-109).  Note there is no already-revoked guard:
the fields are overwritten unconditionally. -/
def revoke_license (db : DB) (license_id : Nat) (reason : String)
    (performed_by : String) (now : Int) : DB × Except String LicenseRow :=
  match db.licenses.find? (fun l => l.id == license_id) with
  | none => (db, .error "License not found")
  | some db_license =>
    let audit : AuditEntry :=
      { license_id := db_license.id
        action := "REVOKED"
        performed_at := now
        performed_by := performed_by
        details := .revoked reason }
    ({ db with
        licenses := updateLicense db.licenses license_id (revokeMutate reason now)
        audits := db.audits ++ [audit] },
     .ok (revokeMutate reason now db_license))

/-- `_map_tier_to_spec` (license_service.py lines 112-119). -/
def map_tier_to_spec (tier_value : String) : String :=
  match [("STARTER", "starter"), ("PROFESSIONAL", "pro"),
         ("ENTERPRISE", "enterprise")].lookup tier_value with
  | some v => v
  | none => tier_value.toLower

/-- `LicenseValidationError(message, code)` (license_service.py lines 14-20). -/
structure LicenseValidationError where
  message : String
  code : String
deriving DecidableEq, Repr

/-- The `Dict[str, Any]` returned by `validate_license_key`, as the union of
the keys of its two return literals; keys absent from the revoked-branch
literal are `none` there.  Datetimes the Python code renders with
`.isoformat()` stay `Int` (the rendering is injective). -/
structure ValidationResult where
  valid : Bool
  license_tier : String
  company_name : String
  max_employees : Option Int
  expires_at : Int
  features : List String
  revoked : Bool
  revocation_reason : Option String
  revoked_at : Option Int
  license_id : Option Nat
  tenant_id : Option Nat
  tenant_slug : Option String
  issued_at : Option Int
  days_until_expiry : Option Int
deriving DecidableEq, Repr

/-- Python `x or "License has been revoked"` on an optional string column
(`None` and `""` are falsy). -/
def reasonOrDefault : Option String → String
  | none => "License has been revoked"
  | some r => if r = "" then "License has been revoked" else r

/-- `_map_tier_to_spec(tenant.tier.value) if tenant else "starter"`. -/
def tierOf : Option TenantRow → String
  | some t => map_tier_to_spec t.tier.value
  | none => "starter"

/-- `tenant.name if tenant else "Unknown"`. -/
def nameOf : Option TenantRow → String
  | some t => t.name
  | none => "Unknown"

/-- The revoked-branch return literal of `validate_license_key`
(license_service.py lines 155-170). -/
def revokedResult (db_license : LicenseRow) (tenant : Option TenantRow) :
    ValidationResult :=
  { valid := false
    revoked := true
    revocation_reason := some (reasonOrDefault db_license.revocation_reason)
    revoked_at := db_license.revoked_at
    license_tier := tierOf tenant
    company_name := nameOf tenant
    max_employees := db_license.max_employees
    expires_at := db_license.expires_at
    features := db_license.features.getD []
    license_id := none
    tenant_id := none
    tenant_slug := none
    issued_at := none
    days_until_expiry := none }

/-- The success return literal of `validate_license_key`
(license_service.py lines 194-210). -/
def successResult (db_license : LicenseRow) (tenant : Option TenantRow)
    (now : Int) : ValidationResult :=
  { valid := true
    license_tier := tierOf tenant
    company_name := nameOf tenant
    max_employees := db_license.max_employees
    expires_at := db_license.expires_at
    features := db_license.features.getD []
    revoked := false
    revocation_reason := none
    revoked_at := none
    license_id := some db_license.id
    tenant_id := some db_license.tenant_id
    tenant_slug := tenant.map (fun t => t.slug)
    issued_at := some db_license.issued_at
    days_until_expiry := some ((db_license.expires_at - now).fdiv 86400) }

/-- The VALIDATED audit row written by `validate_license_key`
(license_service.py lines 180-190). -/
def validatedAudit (db_license : LicenseRow)
    (installation_id hardware_fingerprint : Option String) (now : Int) :
    AuditEntry :=
  { license_id := db_license.id
    action := "VALIDATED"
    performed_at := now
    performed_by := "api"
    details := .validated now installation_id hardware_fingerprint }

/-- `validate_license_key(db, license_key, installation_id,
hardware_fingerprint)` (license_service.py lines 122-210).  `LicenseValidationError`
raises are the `.error` branch; the revoked branch is a normal return. -/
def validate_license_key (db : DB) (license_key : Token)
    (installation_id hardware_fingerprint : Option String) (now : Int) :
    DB × Except LicenseValidationError ValidationResult :=
  match jwtDecode SECRET_KEY now license_key with
  | .error _ => (db, .error ⟨"Invalid license key format", "INVALID_FORMAT"⟩)
  | .ok _ =>
    match db.licenses.find? (fun l => l.key_string == license_key) with
    | none => (db, .error ⟨"License not found", "NOT_FOUND"⟩)
    | some db_license =>
      let tenant := db.tenants.find? (fun t => t.id == db_license.tenant_id)
      if db_license.revoked then
        (db, .ok (revokedResult db_license tenant))
      else if db_license.expires_at < now then
        (db, .error ⟨"License has expired", "EXPIRED"⟩)
      else
        ({ db with audits := db.audits ++
            [validatedAudit db_license installation_id hardware_fingerprint now] },
         .ok (successResult db_license tenant now))

/-- The expiry push-out of `extend_license` (license_service.py line 284):
`expires_at = expires_at + timedelta(days=additional_days)`. -/
def extendMutate (additional_days : Int) (l : LicenseRow) : LicenseRow :=
  { l with expires_at := l.expires_at + additional_days * 86400 }

/-- `extend_license(db, license_id, additional_days, performed_by)`
(license_service.py lines 272-300). -/
def extend_license (db : DB) (license_id : Nat) (additional_days : Int)
    (performed_by : String) (now : Int) : DB × Except String LicenseRow :=
  match db.licenses.find? (fun l => l.id == license_id) with
  | none => (db, .error "License not found")
  | some db_license =>
    if db_license.revoked then
      (db, .error "Cannot extend a revoked license")
    else
      let old_expiry := db_license.expires_at
      let audit : AuditEntry :=
        { license_id := db_license.id
          action := "EXTENDED"
          performed_at := now
          performed_by := performed_by
          details := .extended old_expiry
            (db_license.expires_at + additional_days * 86400) additional_days }
      ({ db with
          licenses := updateLicense db.licenses license_id (extendMutate additional_days)
          audits := db.audits ++ [audit] },
       .ok (extendMutate additional_days db_license))

/-! ### Concrete fixtures (used by witnesses and counterexamples) -/

/-- The acme enterprise tenant of the scenario in the spec. -/
def tenantAcme : TenantRow :=
  { id := 1, name := "Acme", slug := "acme", tier := .ENTERPRISE,
    max_employees := some 500, max_users := some 10,
    features_enabled := ["x", "y"] }

/-- A store holding just the acme tenant and no licenses. -/
def db0 : DB :=
  { tenants := [tenantAcme], licenses := [], audits := [], nextLicenseId := 0 }

/-- The scenario issuance request: 30 days, 500 employees, features x, y. -/
def li0 : LicenseCreate :=
  { tenant_id := 1, expiration_days := 30, max_employees := some 500,
    max_users := some 7, features := ["x", "y"] }

/-- The token `generate_license db0 li0` signs at time 1000. -/
def tok0 : Token := jwtEncode SECRET_KEY (licensePayload "acme" 1000 2593000 li0)

/-- The license row `generate_license db0 li0` persists at time 1000. -/
def lic0 : LicenseRow :=
  { id := 0, tenant_id := 1, key_string := tok0, issued_at := 1000,
    expires_at := 2593000, revoked := false, revoked_at := none,
    revocation_reason := none, max_employees := some 500, max_users := some 7,
    features := some ["x", "y"] }

/-- The store after `generate_license db0 li0 "system" 1000`. -/
def db1c : DB :=
  { tenants := [tenantAcme], licenses := [lic0],
    audits := [⟨0, "ISSUED", 1000, "system", .issued 30⟩], nextLicenseId := 1 }

/-- The acme tenant after a live downgrade of every entitlement (tier,
feature flags, limits) — the tenant mutation of the round-trip property. -/
def tenantAcmeDowngraded : TenantRow :=
  { id := 1, name := "Acme", slug := "acme", tier := .STARTER,
    max_employees := some 1, max_users := some 1, features_enabled := [] }

/-- A token whose embedded `exp` claim (2000000) diverges from the database
row field `expires_at` — the situation extension produces. -/
def tokDiverged : Token :=
  jwtEncode SECRET_KEY
    [("iss", .s "churnvision.tech"), ("sub", .s "tenant_acme"),
     ("iat", .i 0), ("exp", .i 2000000),
     ("features", .arr ["x"]), ("limits", .limitsObj (some 10) (some 2))]

/-- A stored license for `tokDiverged` that expired at 999 (database-side). -/
def licExpired : LicenseRow :=
  { id := 3, tenant_id := 1, key_string := tokDiverged, issued_at := 0,
    expires_at := 999, revoked := false, revoked_at := none,
    revocation_reason := none, max_employees := some 10, max_users := some 2,
    features := some ["x"] }

/-- A stored license for `tokDiverged` that is revoked and also already past
its database `expires_at` (500 < any validation instant used below). -/
def licRevokedExpired : LicenseRow :=
  { id := 4, tenant_id := 1, key_string := tokDiverged, issued_at := 0,
    expires_at := 500, revoked := true, revoked_at := some 100,
    revocation_reason := some "non-payment", max_employees := some 10,
    max_users := some 2, features := some ["x"] }

/-- A store holding the revoked-and-expired license. -/
def dbRev : DB :=
  { tenants := [tenantAcme], licenses := [licRevokedExpired], audits := [],
    nextLicenseId := 5 }

/-- A store holding the database-expired license `licExpired`. -/
def dbExp : DB :=
  { tenants := [tenantAcme], licenses := [licExpired], audits := [],
    nextLicenseId := 4 }

/-- A revoked license whose `revocation_reason` and `revoked_at` columns are
both null, owned by a tenant id that resolves to no tenant row. -/
def licRevokedNullReason : LicenseRow :=
  { id := 6, tenant_id := 9, key_string := tokDiverged, issued_at := 0,
    expires_at := 5000000, revoked := true, revoked_at := none,
    revocation_reason := none, max_employees := none, max_users := none,
    features := none }

/-- A store holding only the null-reason revoked license and no tenants. -/
def dbRevNull : DB :=
  { tenants := [], licenses := [licRevokedNullReason], audits := [],
    nextLicenseId := 7 }

/-! ### Helper lemmas about `List.find?` and `updateLicense` -/

theorem find?_append_of_some {α : Type} (ls ls2 : List α) (p : α → Bool)
    (a : α) (h : ls.find? p = some a) : (ls ++ ls2).find? p = some a := by
  induction ls with
  | nil => simp [List.find?] at h
  | cons x rest ih =>
    rw [List.cons_append]
    cases hx : p x with
    | true =>
      rw [List.find?_cons_of_pos _ hx] at h
      rw [List.find?_cons_of_pos _ hx]
      exact h
    | false =>
      rw [List.find?_cons_of_neg _ (by simp [hx])]
      rw [List.find?_cons_of_neg _ (by simp [hx])] at h
      exact ih h

theorem find?_append_singleton {α : Type} (ls : List α) (x : α) (p : α → Bool)
    (h : ls.find? p = none) (hx : p x = true) :
    (ls ++ [x]).find? p = some x := by
  induction ls with
  | nil => simp [List.find?, hx]
  | cons y rest ih =>
    have hy : p y = false := by
      by_contra hc
      rw [List.find?_cons_of_pos _ (by simpa using hc)] at h
      exact Option.noConfusion h
    rw [List.find?_cons_of_neg _ (by simp [hy])] at h
    rw [List.cons_append, List.find?_cons_of_neg _ (by simp [hy])]
    exact ih h

theorem updateLicense_find? (ls : List LicenseRow) (id : Nat)
    (f : LicenseRow → LicenseRow) (hid : ∀ l, (f l).id = l.id) :
    (updateLicense ls id f).find? (fun l => l.id == id) =
      ((ls.find? (fun l => l.id == id)).map f) := by
  induction ls with
  | nil => rfl
  | cons l rest ih =>
    by_cases h : l.id = id
    · rw [updateLicense, if_pos h]
      rw [List.find?_cons_of_pos _ (by simp [hid, h]),
          List.find?_cons_of_pos _ (by simp [h])]
      rfl
    · rw [updateLicense, if_neg h]
      rw [List.find?_cons_of_neg _ (by simp [h]),
          List.find?_cons_of_neg _ (by simp [h])]
      exact ih

/-! ### Fixed claims of tokens minted by `licensePayload` -/

theorem licensePayload_lookup_exp (slug : String) (ia ea : Int)
    (li : LicenseCreate) :
    (licensePayload slug ia ea li).lookup "exp" = some (.i ea) := rfl

theorem licensePayload_lookup_limits (slug : String) (ia ea : Int)
    (li : LicenseCreate) :
    (licensePayload slug ia ea li).lookup "limits" =
      some (.limitsObj li.max_employees li.max_users) := rfl

theorem licensePayload_lookup_features (slug : String) (ia ea : Int)
    (li : LicenseCreate) :
    (licensePayload slug ia ea li).lookup "features" = some (.arr li.features) := rfl

theorem jwtDecode_encode (secret : String) (p : Payload) (now e : Int)
    (hexp : p.lookup "exp" = some (.i e)) (h : ¬ e < now) :
    jwtDecode secret now (jwtEncode secret p) = .ok p := by
  unfold jwtDecode jwtEncode
  simp [hexp, h]

theorem jwtDecode_bad_sig (secret : String) (p : Payload) (sig2 : String)
    (now : Int) (h : sig2 ≠ macSign secret p) :
    jwtDecode secret now ⟨p, sig2⟩ = .error .badSignature := by
  unfold jwtDecode
  simp [h]

/-! ### Branch characterisations of the four operations -/

theorem generate_license_notfound (db : DB) (license_in : LicenseCreate)
    (performed_by : String) (now : Int)
    (hten : db.tenants.find? (fun t => t.id == license_in.tenant_id) = none) :
    generate_license db license_in performed_by now = (db, .error "Tenant not found") := by
  unfold generate_license
  rw [hten]

theorem generate_license_found (db : DB) (license_in : LicenseCreate)
    (performed_by : String) (now : Int) (tenant : TenantRow)
    (hten : db.tenants.find? (fun t => t.id == license_in.tenant_id) = some tenant) :
    generate_license db license_in performed_by now =
      ({ db with
          licenses := db.licenses ++ [issuedRow db.nextLicenseId tenant license_in now]
          audits := db.audits ++
            [⟨db.nextLicenseId, "ISSUED", now, performed_by,
              .issued license_in.expiration_days⟩]
          nextLicenseId := db.nextLicenseId + 1 },
       .ok (issuedRow db.nextLicenseId tenant license_in now)) := by
  unfold generate_license
  rw [hten]
  rfl

theorem revoke_license_notfound (db : DB) (license_id : Nat) (reason : String)
    (performed_by : String) (now : Int)
    (hfind : db.licenses.find? (fun l => l.id == license_id) = none) :
    revoke_license db license_id reason performed_by now =
      (db, .error "License not found") := by
  unfold revoke_license
  rw [hfind]

theorem revoke_license_found (db : DB) (license_id : Nat) (reason : String)
    (performed_by : String) (now : Int) (lic : LicenseRow)
    (hfind : db.licenses.find? (fun l => l.id == license_id) = some lic) :
    revoke_license db license_id reason performed_by now =
      ({ db with
          licenses := updateLicense db.licenses license_id (revokeMutate reason now)
          audits := db.audits ++
            [⟨lic.id, "REVOKED", now, performed_by, .revoked reason⟩] },
       .ok (revokeMutate reason now lic)) := by
  unfold revoke_license
  rw [hfind]

theorem extend_license_notfound (db : DB) (license_id : Nat)
    (additional_days : Int) (performed_by : String) (now : Int)
    (hfind : db.licenses.find? (fun l => l.id == license_id) = none) :
    extend_license db license_id additional_days performed_by now =
      (db, .error "License not found") := by
  unfold extend_license
  rw [hfind]

theorem extend_license_revoked (db : DB) (license_id : Nat)
    (additional_days : Int) (performed_by : String) (now : Int)
    (lic : LicenseRow)
    (hfind : db.licenses.find? (fun l => l.id == license_id) = some lic)
    (hrev : lic.revoked = true) :
    extend_license db license_id additional_days performed_by now =
      (db, .error "Cannot extend a revoked license") := by
  unfold extend_license
  rw [hfind]
  simp [hrev]

theorem extend_license_ok (db : DB) (license_id : Nat)
    (additional_days : Int) (performed_by : String) (now : Int)
    (lic : LicenseRow)
    (hfind : db.licenses.find? (fun l => l.id == license_id) = some lic)
    (hrev : lic.revoked = false) :
    extend_license db license_id additional_days performed_by now =
      ({ db with
          licenses := updateLicense db.licenses license_id
            (extendMutate additional_days)
          audits := db.audits ++
            [⟨lic.id, "EXTENDED", now, performed_by,
              .extended lic.expires_at (lic.expires_at + additional_days * 86400)
                additional_days⟩] },
       .ok (extendMutate additional_days lic)) := by
  unfold extend_license
  rw [hfind]
  simp [hrev]

theorem validate_decode_error_spec (db : DB) (t : Token)
    (iid hf : Option String) (now : Int) (e : JwtError)
    (hdec : jwtDecode SECRET_KEY now t = .error e) :
    validate_license_key db t iid hf now =
      (db, .error ⟨"Invalid license key format", "INVALID_FORMAT"⟩) := by
  unfold validate_license_key
  rw [hdec]

theorem validate_notfound_spec (db : DB) (t : Token)
    (iid hf : Option String) (now : Int) (p : Payload)
    (hdec : jwtDecode SECRET_KEY now t = .ok p)
    (hfind : db.licenses.find? (fun l => l.key_string == t) = none) :
    validate_license_key db t iid hf now =
      (db, .error ⟨"License not found", "NOT_FOUND"⟩) := by
  unfold validate_license_key
  rw [hdec, hfind]

theorem validate_revoked_spec (db : DB) (t : Token)
    (iid hf : Option String) (now : Int) (p : Payload) (lic : LicenseRow)
    (hdec : jwtDecode SECRET_KEY now t = .ok p)
    (hfind : db.licenses.find? (fun l => l.key_string == t) = some lic)
    (hrev : lic.revoked = true) :
    validate_license_key db t iid hf now =
      (db, .ok (revokedResult lic
        (db.tenants.find? (fun tt => tt.id == lic.tenant_id)))) := by
  unfold validate_license_key
  rw [hdec, hfind]
  simp [hrev]

theorem validate_expired_spec (db : DB) (t : Token)
    (iid hf : Option String) (now : Int) (p : Payload) (lic : LicenseRow)
    (hdec : jwtDecode SECRET_KEY now t = .ok p)
    (hfind : db.licenses.find? (fun l => l.key_string == t) = some lic)
    (hrev : lic.revoked = false) (hexp : lic.expires_at < now) :
    validate_license_key db t iid hf now =
      (db, .error ⟨"License has expired", "EXPIRED"⟩) := by
  unfold validate_license_key
  rw [hdec, hfind]
  simp [hrev, hexp]

theorem validate_success_spec (db : DB) (t : Token)
    (iid hf : Option String) (now : Int) (p : Payload) (lic : LicenseRow)
    (hdec : jwtDecode SECRET_KEY now t = .ok p)
    (hfind : db.licenses.find? (fun l => l.key_string == t) = some lic)
    (hrev : lic.revoked = false) (hexp : ¬ lic.expires_at < now) :
    validate_license_key db t iid hf now =
      ({ db with audits := db.audits ++ [validatedAudit lic iid hf now] },
       .ok (successResult lic
         (db.tenants.find? (fun tt => tt.id == lic.tenant_id)) now)) := by
  unfold validate_license_key
  rw [hdec, hfind]
  simp [hrev, hexp]

theorem validate_preserves_licenses (db : DB) (t : Token)
    (iid hf : Option String) (now : Int) :
    (validate_license_key db t iid hf now).1.licenses = db.licenses := by
  unfold validate_license_key
  split
  · rfl
  · split
    · rfl
    · split
      · rfl
      · split
        · rfl
        · rfl

/-! ### The claims -/

/-- Claim C2: for every stored license with `revoked = true` whose token
decodes, `validate_license_key` does not raise; it returns a result with
`valid = false` and `revoked = true` carrying the revocation reason, the
revocation timestamp, and the last-known tier, company name, max_employees,
expiry and features.  The statement quantifies over every `now`, so the
revoked outcome is produced in particular when `expires_at < now` as well:
the revoked check (line 151) precedes the expiry check (line 173). -/
theorem validate_revoked_nonthrowing (db : DB) (t : Token)
    (iid hf : Option String) (now : Int) (p : Payload) (lic : LicenseRow)
    (hdec : jwtDecode SECRET_KEY now t = .ok p)
    (hfind : db.licenses.find? (fun l => l.key_string == t) = some lic)
    (hrev : lic.revoked = true) :
    ∃ r, validate_license_key db t iid hf now = (db, .ok r)
      ∧ r.valid = false
      ∧ r.revoked = true
      ∧ r.revocation_reason = some (reasonOrDefault lic.revocation_reason)
      ∧ r.revoked_at = lic.revoked_at
      ∧ r.license_tier = tierOf (db.tenants.find? (fun tt => tt.id == lic.tenant_id))
      ∧ r.company_name = nameOf (db.tenants.find? (fun tt => tt.id == lic.tenant_id))
      ∧ r.max_employees = lic.max_employees
      ∧ r.expires_at = lic.expires_at
      ∧ r.features = lic.features.getD [] :=
  ⟨revokedResult lic (db.tenants.find? (fun tt => tt.id == lic.tenant_id)),
   validate_revoked_spec db t iid hf now p lic hdec hfind hrev,
   rfl, rfl, rfl, rfl, rfl, rfl, rfl, rfl, rfl⟩

/-- Witness for C2: the revoked license `licRevokedExpired` is validated at
time 1000, which is also past its `expires_at` of 500, and the revoked
envelope comes back instead of the Expired error. -/
theorem validate_revoked_nonthrowing_witness :
    ∃ r, validate_license_key dbRev tokDiverged none none 1000 = (dbRev, .ok r)
      ∧ r.valid = false
      ∧ r.revoked = true
      ∧ r.revocation_reason =
          some (reasonOrDefault licRevokedExpired.revocation_reason)
      ∧ r.revoked_at = licRevokedExpired.revoked_at
      ∧ r.license_tier = tierOf (dbRev.tenants.find?
          (fun tt => tt.id == licRevokedExpired.tenant_id))
      ∧ r.company_name = nameOf (dbRev.tenants.find?
          (fun tt => tt.id == licRevokedExpired.tenant_id))
      ∧ r.max_employees = licRevokedExpired.max_employees
      ∧ r.expires_at = licRevokedExpired.expires_at
      ∧ r.features = licRevokedExpired.features.getD [] :=
  validate_revoked_nonthrowing dbRev tokDiverged none none 1000
    tokDiverged.payload licRevokedExpired (by decide) (by decide) (by decide)

/-- Claim C10: for every revoked license whose stored `revocation_reason` is
null, `validate_license_key` returns a revoked result whose
`revocation_reason` is the fixed string "License has been revoked" rather
than null, whose `revoked_at` is null exactly when no revocation timestamp
is stored, and whose `revocation_reason` is never null. -/
theorem revoked_reason_never_null (db : DB) (t : Token)
    (iid hf : Option String) (now : Int) (p : Payload) (lic : LicenseRow)
    (hdec : jwtDecode SECRET_KEY now t = .ok p)
    (hfind : db.licenses.find? (fun l => l.key_string == t) = some lic)
    (hrev : lic.revoked = true) :
    ∃ r, (validate_license_key db t iid hf now).2 = .ok r
      ∧ r.revocation_reason.isSome = true
      ∧ (lic.revocation_reason = none →
          r.revocation_reason = some "License has been revoked")
      ∧ (r.revoked_at = none ↔ lic.revoked_at = none) := by
  refine ⟨revokedResult lic (db.tenants.find? (fun tt => tt.id == lic.tenant_id)),
    ?_, rfl, ?_, Iff.rfl⟩
  · rw [validate_revoked_spec db t iid hf now p lic hdec hfind hrev]
  · intro h
    simp [revokedResult, reasonOrDefault, h]

/-- Witness for C10: `licRevokedNullReason` stores a null reason and a null
revocation timestamp, and its tenant id resolves to no tenant row. -/
theorem revoked_reason_never_null_witness :
    ∃ r, (validate_license_key dbRevNull tokDiverged none none 1000).2 = .ok r
      ∧ r.revocation_reason.isSome = true
      ∧ (licRevokedNullReason.revocation_reason = none →
          r.revocation_reason = some "License has been revoked")
      ∧ (r.revoked_at = none ↔ licRevokedNullReason.revoked_at = none) :=
  revoked_reason_never_null dbRevNull tokDiverged none none 1000
    tokDiverged.payload licRevokedNullReason (by decide) (by decide) (by decide)

/-- Claim C3: for every non-revoked stored license whose token passes the
decode step (signature and embedded claim verification),
`validate_license_key` fails with the Expired error exactly when the
database expires_at is strictly before `now`; otherwise it succeeds.  The
database column, not the embedded `exp` claim, decides: the witness below
exercises a token whose claim and row disagree. -/
theorem validate_expiry_db_authoritative (db : DB) (t : Token)
    (iid hf : Option String) (now : Int) (p : Payload) (lic : LicenseRow)
    (hdec : jwtDecode SECRET_KEY now t = .ok p)
    (hfind : db.licenses.find? (fun l => l.key_string == t) = some lic)
    (hrev : lic.revoked = false) :
    (validate_license_key db t iid hf now =
        (db, .error ⟨"License has expired", "EXPIRED"⟩)
      ↔ lic.expires_at < now)
    ∧ (¬ lic.expires_at < now →
        validate_license_key db t iid hf now =
          ({ db with audits := db.audits ++ [validatedAudit lic iid hf now] },
           .ok (successResult lic
             (db.tenants.find? (fun tt => tt.id == lic.tenant_id)) now))) := by
  constructor
  · constructor
    · intro h
      by_contra hlt
      rw [validate_success_spec db t iid hf now p lic hdec hfind hrev hlt] at h
      exact Except.noConfusion (congrArg Prod.snd h)
    · intro h
      exact validate_expired_spec db t iid hf now p lic hdec hfind hrev h
  · intro h
    exact validate_success_spec db t iid hf now p lic hdec hfind hrev h

/-- Witness for C3, at the expiry boundary: `licExpired` has database
expires_at 999 while its token claims exp 2000000.  Validating at time 1000
(row one second past) yields the Expired error; validating at time 998 (row
one second in the future) succeeds. -/
theorem validate_expiry_db_authoritative_witness :
    validate_license_key dbExp tokDiverged none none 1000 =
        (dbExp, .error ⟨"License has expired", "EXPIRED"⟩)
    ∧ validate_license_key dbExp tokDiverged none none 998 =
        ({ dbExp with audits :=
            dbExp.audits ++ [validatedAudit licExpired none none 998] },
         .ok (successResult licExpired
           (dbExp.tenants.find? (fun tt => tt.id == licExpired.tenant_id)) 998)) :=
  ⟨(validate_expiry_db_authoritative dbExp tokDiverged none none 1000
      tokDiverged.payload licExpired (by decide) (by decide) (by decide)).1.mpr
      (by decide),
   (validate_expiry_db_authoritative dbExp tokDiverged none none 998
      tokDiverged.payload licExpired (by decide) (by decide) (by decide)).2
      (by decide)⟩

/-- Claim C4: every input whose decode step fails (bad signature, malformed
claims, or embedded expiry passed) makes `validate_license_key` fail with
"INVALID_FORMAT" before any database lookup: the outcome is the same for
every store, the store is returned untouched, and the result is never the
NOT_FOUND error and never a `valid = true` success.  The second conjunct
covers any signature segment differing from the true MAC; the third covers
specifically a valid token with one character of its signature segment
altered. -/
theorem invalid_token_rejected_before_db :
    (∀ (t : Token) (now : Int) (e : JwtError),
       jwtDecode SECRET_KEY now t = .error e →
       ∀ (db : DB) (iid hf : Option String),
         validate_license_key db t iid hf now =
           (db, .error ⟨"Invalid license key format", "INVALID_FORMAT"⟩))
    ∧ (∀ (p : Payload) (sig2 : String), sig2 ≠ macSign SECRET_KEY p →
        ∀ (now : Int) (db : DB) (iid hf : Option String),
          validate_license_key db ⟨p, sig2⟩ iid hf now =
            (db, .error ⟨"Invalid license key format", "INVALID_FORMAT"⟩))
    ∧ (∀ (p : Payload) (l1 l2 : List Char) (c0 c : Char),
        (macSign SECRET_KEY p).data = l1 ++ c0 :: l2 → c ≠ c0 →
        ∀ (now : Int) (db : DB) (iid hf : Option String),
          validate_license_key db ⟨p, ⟨l1 ++ c :: l2⟩⟩ iid hf now =
            (db, .error ⟨"Invalid license key format", "INVALID_FORMAT"⟩)) := by
  refine ⟨?_, ?_, ?_⟩
  · intro t now e hdec db iid hf
    exact validate_decode_error_spec db t iid hf now e hdec
  · intro p sig2 hne now db iid hf
    exact validate_decode_error_spec db ⟨p, sig2⟩ iid hf now .badSignature
      (jwtDecode_bad_sig SECRET_KEY p sig2 now hne)
  · intro p l1 l2 c0 c hdata hne now db iid hf
    apply validate_decode_error_spec db _ iid hf now .badSignature
    apply jwtDecode_bad_sig
    intro hs
    have hd : l1 ++ c :: l2 = l1 ++ c0 :: l2 := by
      have h2 := congrArg String.data hs
      rw [hdata] at h2
      exact h2
    have hc : c = c0 := by
      have h3 := List.append_cancel_left hd
      injection h3
    exact hne hc

/-- Witness for C4: the first character of the signature segment of the
issued token `tok0` is changed from the character it carries to X; even
though the untampered token is stored in `db1c`, validation rejects the
altered token with INVALID_FORMAT, not NOT_FOUND. -/
theorem invalid_token_rejected_before_db_witness :
    validate_license_key db1c
      ⟨tok0.payload, ⟨[] ++ 'X' :: (macSign SECRET_KEY tok0.payload).data.tail⟩⟩
      none none 1000 =
      (db1c, .error ⟨"Invalid license key format", "INVALID_FORMAT"⟩) :=
  invalid_token_rejected_before_db.2.2 tok0.payload []
    (macSign SECRET_KEY tok0.payload).data.tail 'd' 'X'
    (by decide) (by decide) 1000 db1c none none

/-- Claim C1: for every existing tenant and every issuance input,
`generate_license` followed by `validate_license_key` on the token it
produced returns `valid = true` with the features list, the max_employees
limit and the limits claim of the token exactly equal to those passed to
issue — for ANY replacement of the tenants table in between (so in
particular after any change to the live tier, features_enabled or limits of
the tenant), because validation reads the snapshot persisted on the License
row.  The freshness hypothesis says the minted token string is not already
stored; the expiry hypothesis keeps the validation instant inside the
granted window. -/
theorem round_trip_issue_validate (db : DB) (license_in : LicenseCreate)
    (performed_by : String) (t0 t1 : Int) (tenants2 : List TenantRow)
    (tenant : TenantRow) (iid hf : Option String)
    (hten : db.tenants.find? (fun t => t.id == license_in.tenant_id) = some tenant)
    (hfresh : db.licenses.find? (fun l =>
      l.key_string == (issuedRow db.nextLicenseId tenant license_in t0).key_string) = none)
    (hnotexp : ¬ t0 + license_in.expiration_days * 86400 < t1) :
    ∃ db1 lic db2 r,
      generate_license db license_in performed_by t0 = (db1, .ok lic)
      ∧ validate_license_key { db1 with tenants := tenants2 }
          lic.key_string iid hf t1 = (db2, .ok r)
      ∧ r.valid = true
      ∧ r.features = license_in.features
      ∧ r.max_employees = license_in.max_employees
      ∧ lic.max_users = license_in.max_users
      ∧ lic.key_string.payload.lookup "limits" =
          some (.limitsObj license_in.max_employees license_in.max_users) := by
  have hdec : jwtDecode SECRET_KEY t1
      (issuedRow db.nextLicenseId tenant license_in t0).key_string =
      .ok (licensePayload tenant.slug t0
        (t0 + license_in.expiration_days * 86400) license_in) :=
    jwtDecode_encode SECRET_KEY _ t1 (t0 + license_in.expiration_days * 86400)
      (licensePayload_lookup_exp _ _ _ _) hnotexp
  have hfind : (db.licenses ++ [issuedRow db.nextLicenseId tenant license_in t0]).find?
      (fun l => l.key_string ==
        (issuedRow db.nextLicenseId tenant license_in t0).key_string)
      = some (issuedRow db.nextLicenseId tenant license_in t0) :=
    find?_append_singleton db.licenses _ _ hfresh (by simp)
  refine ⟨_, _, _, _,
    generate_license_found db license_in performed_by t0 tenant hten,
    validate_success_spec _ _ iid hf t1 _ _ hdec hfind rfl hnotexp,
    rfl, ?_, rfl, rfl, licensePayload_lookup_limits _ _ _ _⟩
  simp [successResult, issuedRow]

/-- Witness for C1: issue the scenario license for the acme tenant at time
1000, downgrade every live entitlement of the tenant, validate at time
2000: the result is valid with the snapshot features and limits. -/
theorem round_trip_issue_validate_witness :
    ∃ db1 lic db2 r,
      generate_license db0 li0 "system" 1000 = (db1, .ok lic)
      ∧ validate_license_key { db1 with tenants := [tenantAcmeDowngraded] }
          lic.key_string none none 2000 = (db2, .ok r)
      ∧ r.valid = true
      ∧ r.features = li0.features
      ∧ r.max_employees = li0.max_employees
      ∧ lic.max_users = li0.max_users
      ∧ lic.key_string.payload.lookup "limits" =
          some (.limitsObj li0.max_employees li0.max_users) :=
  round_trip_issue_validate db0 li0 "system" 1000 2000 [tenantAcmeDowngraded]
    tenantAcme none none (by decide) (by decide) (by decide)

/-- Claim C5: every successful `generate_license`, `validate_license_key`
(a `valid = true` return), `revoke_license` and `extend_license` call
appends exactly one new audit entry, with action tag ISSUED, VALIDATED,
REVOKED and EXTENDED respectively, and every failing call (tenant or
license not found, invalid format, expired, extend-on-revoked) leaves the
store — audit table included — completely unchanged.  The revoked
validation outcome (returned, not raised, with `valid = false`) also leaves
the store unchanged. -/
theorem audit_completeness :
    (∀ (db db2 : DB) (li : LicenseCreate) (pb : String) (now : Int)
       (lic : LicenseRow),
       generate_license db li pb now = (db2, .ok lic) →
         db2.audits = db.audits ++
           [⟨lic.id, "ISSUED", now, pb, .issued li.expiration_days⟩])
    ∧ (∀ (db db2 : DB) (li : LicenseCreate) (pb : String) (now : Int)
         (e : String),
        generate_license db li pb now = (db2, .error e) → db2 = db)
    ∧ (∀ (db db2 : DB) (t : Token) (iid hf : Option String) (now : Int)
         (r : ValidationResult),
        validate_license_key db t iid hf now = (db2, .ok r) →
          (r.valid = true → ∃ lid, db2.audits = db.audits ++
              [⟨lid, "VALIDATED", now, "api", .validated now iid hf⟩])
          ∧ (r.valid = false → db2 = db))
    ∧ (∀ (db db2 : DB) (t : Token) (iid hf : Option String) (now : Int)
         (e : LicenseValidationError),
        validate_license_key db t iid hf now = (db2, .error e) → db2 = db)
    ∧ (∀ (db db2 : DB) (id : Nat) (reason pb : String) (now : Int)
         (lic : LicenseRow),
        revoke_license db id reason pb now = (db2, .ok lic) →
          db2.audits = db.audits ++
            [⟨lic.id, "REVOKED", now, pb, .revoked reason⟩])
    ∧ (∀ (db db2 : DB) (id : Nat) (reason pb : String) (now : Int)
         (e : String),
        revoke_license db id reason pb now = (db2, .error e) → db2 = db)
    ∧ (∀ (db db2 : DB) (id : Nat) (d : Int) (pb : String) (now : Int)
         (lic : LicenseRow),
        extend_license db id d pb now = (db2, .ok lic) →
          ∃ a : AuditEntry, db2.audits = db.audits ++ [a]
            ∧ a.action = "EXTENDED" ∧ a.license_id = lic.id)
    ∧ (∀ (db db2 : DB) (id : Nat) (d : Int) (pb : String) (now : Int)
         (e : String),
        extend_license db id d pb now = (db2, .error e) → db2 = db) := by
  refine ⟨?_, ?_, ?_, ?_, ?_, ?_, ?_, ?_⟩
  · intro db db2 li pb now lic h
    cases hten : db.tenants.find? (fun t => t.id == li.tenant_id) with
    | none =>
      rw [generate_license_notfound db li pb now hten] at h
      exact Except.noConfusion (congrArg Prod.snd h)
    | some tenant =>
      rw [generate_license_found db li pb now tenant hten] at h
      have h1 := (congrArg Prod.fst h).symm
      have h2 : issuedRow db.nextLicenseId tenant li now = lic := by
        injection congrArg Prod.snd h
      subst h1
      subst h2
      rfl
  · intro db db2 li pb now e h
    cases hten : db.tenants.find? (fun t => t.id == li.tenant_id) with
    | none =>
      rw [generate_license_notfound db li pb now hten] at h
      exact (congrArg Prod.fst h).symm
    | some tenant =>
      rw [generate_license_found db li pb now tenant hten] at h
      exact Except.noConfusion (congrArg Prod.snd h)
  · intro db db2 t iid hf now r h
    cases hdec : jwtDecode SECRET_KEY now t with
    | error e =>
      rw [validate_decode_error_spec db t iid hf now e hdec] at h
      exact Except.noConfusion (congrArg Prod.snd h)
    | ok p =>
      cases hfind : db.licenses.find? (fun l => l.key_string == t) with
      | none =>
        rw [validate_notfound_spec db t iid hf now p hdec hfind] at h
        exact Except.noConfusion (congrArg Prod.snd h)
      | some lic =>
        cases hrev : lic.revoked with
        | true =>
          rw [validate_revoked_spec db t iid hf now p lic hdec hfind hrev] at h
          have h1 := (congrArg Prod.fst h).symm
          have h2 : revokedResult lic
              (db.tenants.find? (fun tt => tt.id == lic.tenant_id)) = r := by
            injection congrArg Prod.snd h
          constructor
          · intro hv
            rw [← h2] at hv
            exact absurd hv (by simp [revokedResult])
          · intro _
            exact h1
        | false =>
          by_cases hexp : lic.expires_at < now
          · rw [validate_expired_spec db t iid hf now p lic hdec hfind hrev hexp] at h
            exact Except.noConfusion (congrArg Prod.snd h)
          · rw [validate_success_spec db t iid hf now p lic hdec hfind hrev hexp] at h
            have h1 := (congrArg Prod.fst h).symm
            constructor
            · intro _
              subst h1
              exact ⟨lic.id, rfl⟩
            · intro hv
              have h2 : successResult lic
                  (db.tenants.find? (fun tt => tt.id == lic.tenant_id)) now = r := by
                injection congrArg Prod.snd h
              rw [← h2] at hv
              exact absurd hv (by simp [successResult])
  · intro db db2 t iid hf now e h
    cases hdec : jwtDecode SECRET_KEY now t with
    | error e2 =>
      rw [validate_decode_error_spec db t iid hf now e2 hdec] at h
      exact (congrArg Prod.fst h).symm
    | ok p =>
      cases hfind : db.licenses.find? (fun l => l.key_string == t) with
      | none =>
        rw [validate_notfound_spec db t iid hf now p hdec hfind] at h
        exact (congrArg Prod.fst h).symm
      | some lic =>
        cases hrev : lic.revoked with
        | true =>
          rw [validate_revoked_spec db t iid hf now p lic hdec hfind hrev] at h
          exact Except.noConfusion (congrArg Prod.snd h)
        | false =>
          by_cases hexp : lic.expires_at < now
          · rw [validate_expired_spec db t iid hf now p lic hdec hfind hrev hexp] at h
            exact (congrArg Prod.fst h).symm
          · rw [validate_success_spec db t iid hf now p lic hdec hfind hrev hexp] at h
            exact Except.noConfusion (congrArg Prod.snd h)
  · intro db db2 id reason pb now lic h
    cases hfind : db.licenses.find? (fun l => l.id == id) with
    | none =>
      rw [revoke_license_notfound db id reason pb now hfind] at h
      exact Except.noConfusion (congrArg Prod.snd h)
    | some found =>
      rw [revoke_license_found db id reason pb now found hfind] at h
      have h1 := (congrArg Prod.fst h).symm
      have h2 : revokeMutate reason now found = lic := by
        injection congrArg Prod.snd h
      subst h1
      subst h2
      rfl
  · intro db db2 id reason pb now e h
    cases hfind : db.licenses.find? (fun l => l.id == id) with
    | none =>
      rw [revoke_license_notfound db id reason pb now hfind] at h
      exact (congrArg Prod.fst h).symm
    | some found =>
      rw [revoke_license_found db id reason pb now found hfind] at h
      exact Except.noConfusion (congrArg Prod.snd h)
  · intro db db2 id d pb now lic h
    cases hfind : db.licenses.find? (fun l => l.id == id) with
    | none =>
      rw [extend_license_notfound db id d pb now hfind] at h
      exact Except.noConfusion (congrArg Prod.snd h)
    | some found =>
      cases hrev : found.revoked with
      | true =>
        rw [extend_license_revoked db id d pb now found hfind hrev] at h
        exact Except.noConfusion (congrArg Prod.snd h)
      | false =>
        rw [extend_license_ok db id d pb now found hfind hrev] at h
        have h1 := (congrArg Prod.fst h).symm
        have h2 : extendMutate d found = lic := by
          injection congrArg Prod.snd h
        subst h1
        subst h2
        exact ⟨_, rfl, rfl, rfl⟩
  · intro db db2 id d pb now e h
    cases hfind : db.licenses.find? (fun l => l.id == id) with
    | none =>
      rw [extend_license_notfound db id d pb now hfind] at h
      exact (congrArg Prod.fst h).symm
    | some found =>
      cases hrev : found.revoked with
      | true =>
        rw [extend_license_revoked db id d pb now found hfind hrev] at h
        exact (congrArg Prod.fst h).symm
      | false =>
        rw [extend_license_ok db id d pb now found hfind hrev] at h
        exact Except.noConfusion (congrArg Prod.snd h)

/-- Witness for C5: a successful issuance appends exactly the ISSUED entry;
a failed issuance (unknown tenant) leaves the empty store unchanged. -/
theorem audit_completeness_witness :
    db1c.audits = db0.audits ++
      [⟨lic0.id, "ISSUED", 1000, "system", .issued li0.expiration_days⟩]
    ∧ db0 = db0 :=
  ⟨audit_completeness.1 db0 db1c li0 "system" 1000 lic0 (by decide),
   audit_completeness.2.1 db0 db0 { li0 with tenant_id := 99 } "system" 1000
     "Tenant not found" (by decide)⟩

/-- Claim C6: for every non-revoked license found by id, `extend_license`
sets the new expires_at to the old one plus `additional_days` days, for any
integer including negative ones; chaining extend by 10 then by minus 5
lands exactly 5 days after the initial expiry, both in the returned row and
in the stored row; and for every revoked license, extend always fails and
returns the store unchanged, so expires_at is never mutated. -/
theorem extension_monotonicity :
    (∀ (db : DB) (id : Nat) (d : Int) (pb : String) (now : Int)
       (lic : LicenseRow),
       db.licenses.find? (fun l => l.id == id) = some lic →
       lic.revoked = false →
       ∃ db2, extend_license db id d pb now = (db2, .ok (extendMutate d lic))
         ∧ (extendMutate d lic).expires_at = lic.expires_at + d * 86400
         ∧ db2.licenses.find? (fun l => l.id == id) = some (extendMutate d lic))
    ∧ (∀ (db : DB) (id : Nat) (pb1 pb2 : String) (now1 now2 : Int)
         (lic : LicenseRow),
        db.licenses.find? (fun l => l.id == id) = some lic →
        lic.revoked = false →
        ∃ db2 lic2,
          extend_license (extend_license db id 10 pb1 now1).1 id (-5) pb2 now2 =
            (db2, .ok lic2)
          ∧ lic2.expires_at = lic.expires_at + 5 * 86400
          ∧ db2.licenses.find? (fun l => l.id == id) = some lic2)
    ∧ (∀ (db : DB) (id : Nat) (d : Int) (pb : String) (now : Int)
         (lic : LicenseRow),
        db.licenses.find? (fun l => l.id == id) = some lic →
        lic.revoked = true →
        extend_license db id d pb now = (db, .error "Cannot extend a revoked license")) := by
  have hone : ∀ (db : DB) (id : Nat) (d : Int) (pb : String) (now : Int)
      (lic : LicenseRow),
      db.licenses.find? (fun l => l.id == id) = some lic →
      lic.revoked = false →
      ∃ db2, extend_license db id d pb now = (db2, .ok (extendMutate d lic))
        ∧ (extendMutate d lic).expires_at = lic.expires_at + d * 86400
        ∧ db2.licenses.find? (fun l => l.id == id) = some (extendMutate d lic) := by
    intro db id d pb now lic hfind hrev
    refine ⟨_, extend_license_ok db id d pb now lic hfind hrev, rfl, ?_⟩
    show (updateLicense db.licenses id (extendMutate d)).find?
      (fun l => l.id == id) = some (extendMutate d lic)
    rw [updateLicense_find? db.licenses id (extendMutate d) (fun l => rfl), hfind]
    rfl
  refine ⟨hone, ?_, ?_⟩
  · intro db id pb1 pb2 now1 now2 lic hfind hrev
    obtain ⟨db1, heq1, _, hfind1⟩ := hone db id 10 pb1 now1 lic hfind hrev
    have hdb1 : (extend_license db id 10 pb1 now1).1 = db1 := by rw [heq1]
    rw [hdb1]
    obtain ⟨db2, heq2, _, hfind2⟩ :=
      hone db1 id (-5) pb2 now2 (extendMutate 10 lic) hfind1 hrev
    refine ⟨db2, extendMutate (-5) (extendMutate 10 lic), heq2, ?_, hfind2⟩
    show lic.expires_at + 10 * 86400 + (-5) * 86400 = lic.expires_at + 5 * 86400
    omega
  · intro db id d pb now lic hfind hrev
    exact extend_license_revoked db id d pb now lic hfind hrev

/-- Witness for C6: extending the scenario license (expiry 2593000) by 10
then by minus 5 days leaves the stored expiry at 2593000 plus 5 days
(3025000); extending the revoked license 4 fails without touching the
store. -/
theorem extension_monotonicity_witness :
    (∃ db2 lic2,
      extend_license (extend_license db1c 0 10 "admin" 3000).1 0 (-5) "admin" 4000 =
        (db2, .ok lic2)
      ∧ lic2.expires_at = lic0.expires_at + 5 * 86400
      ∧ db2.licenses.find? (fun l => l.id == 0) = some lic2)
    ∧ extend_license dbRev 4 7 "admin" 3000 =
        (dbRev, .error "Cannot extend a revoked license") :=
  ⟨extension_monotonicity.2.1 db1c 0 "admin" "admin" 3000 4000 lic0
     (by decide) (by decide),
   extension_monotonicity.2.2 dbRev 4 7 "admin" 3000 licRevokedExpired
     (by decide) (by decide)⟩

/-- An issuance request with `expiration_days = 0` for the acme tenant. -/
def liZero : LicenseCreate :=
  { tenant_id := 1, expiration_days := 0, max_employees := some 5,
    max_users := some 2, features := ["a"] }

/-- Counterexample to C7 as stated: `generate_license` accepts
`expiration_days = 0` and `expiration_days = -3` — no rejection happens
anywhere (neither the `LicenseCreate` schema, which declares a plain `int`
defaulting to 365, nor the service validates positivity): a token is signed
and a License row is persisted in both cases. -/
theorem nonpositive_days_accepted_cex :
    (generate_license db0 liZero "system" 1000).2 =
      .ok (issuedRow 0 tenantAcme liZero 1000)
    ∧ (generate_license db0 liZero "system" 1000).1.licenses.length = 1
    ∧ (generate_license db0 { liZero with expiration_days := -3 } "system" 1000).2 =
      .ok (issuedRow 0 tenantAcme { liZero with expiration_days := -3 } 1000)
    ∧ (issuedRow 0 tenantAcme liZero 1000).expires_at = 1000
    ∧ (issuedRow 0 tenantAcme { liZero with expiration_days := -3 } 1000).expires_at
        = 1000 - 3 * 86400 := by
  refine ⟨by decide, by decide, by decide, by decide, by decide⟩

/-- Claim C7 as amended: `generate_license` performs NO validation of
`expiration_days` — for every existing tenant and every integer
`expiration_days`, including zero and negative values, it signs a token and
persists a License row with `expires_at = issued_at + expiration_days`
days. -/
theorem issue_accepts_any_expiration_days (db : DB) (li : LicenseCreate)
    (pb : String) (now : Int) (tenant : TenantRow)
    (hten : db.tenants.find? (fun t => t.id == li.tenant_id) = some tenant) :
    ∃ lic, generate_license db li pb now =
        ({ db with
            licenses := db.licenses ++ [lic]
            audits := db.audits ++
              [⟨db.nextLicenseId, "ISSUED", now, pb, .issued li.expiration_days⟩]
            nextLicenseId := db.nextLicenseId + 1 },
         .ok lic)
      ∧ lic.expires_at = now + li.expiration_days * 86400
      ∧ lic.key_string = jwtEncode SECRET_KEY
          (licensePayload tenant.slug now (now + li.expiration_days * 86400) li) :=
  ⟨issuedRow db.nextLicenseId tenant li now,
   generate_license_found db li pb now tenant hten, rfl, rfl⟩

/-- Witness for the amended C7: an issuance of minus 3 days goes through
and lands `expires_at` 3 days before `issued_at`. -/
theorem issue_accepts_any_expiration_days_witness :
    ∃ lic, generate_license db0 { liZero with expiration_days := -3 } "system" 1000 =
        ({ db0 with
            licenses := db0.licenses ++ [lic]
            audits := db0.audits ++ [⟨db0.nextLicenseId, "ISSUED", 1000, "system",
              .issued ({ liZero with expiration_days := -3 } : LicenseCreate).expiration_days⟩]
            nextLicenseId := db0.nextLicenseId + 1 },
         .ok lic)
      ∧ lic.expires_at = 1000 + ({ liZero with expiration_days := -3 } : LicenseCreate).expiration_days * 86400
      ∧ lic.key_string = jwtEncode SECRET_KEY
          (licensePayload tenantAcme.slug 1000
            (1000 + ({ liZero with expiration_days := -3 } : LicenseCreate).expiration_days * 86400)
            { liZero with expiration_days := -3 }) :=
  issue_accepts_any_expiration_days db0 { liZero with expiration_days := -3 }
    "system" 1000 tenantAcme (by decide)

/-- An issuance request carrying an `embedded_keys` block (an admin panel
API key and an OpenAI key), as the `LicenseCreate` schema allows. -/
def liKeys : LicenseCreate :=
  { tenant_id := 1, expiration_days := 30, max_employees := some 500,
    max_users := some 7, features := ["x"],
    embedded_keys := some
      { admin_api_key := some "cust-admin-key",
        llm_api_keys := some
          { openai := some "sk-test", anthropic := none, google := none } } }

/-- Claim C8, code evidence: the schema documents `embedded_keys` as keys
to embed in the license JWT, and the issuance request `liKeys` supplies
one, yet `generate_license` never reads the field — the signed payload of
the persisted token has no `embedded_keys` claim at all; its keys are
exactly iss, sub, iat, exp, features, limits (the dict literal of
license_service.py lines 45-55). -/
theorem embedded_keys_dropped_from_token :
    liKeys.embedded_keys.isSome = true
    ∧ (generate_license db0 liKeys "system" 1000).2 =
        .ok (issuedRow 0 tenantAcme liKeys 1000)
    ∧ (issuedRow 0 tenantAcme liKeys 1000).key_string.payload.lookup
        "embedded_keys" = none
    ∧ (issuedRow 0 tenantAcme liKeys 1000).key_string.payload.map Prod.fst =
        ["iss", "sub", "iat", "exp", "features", "limits"] := by
  refine ⟨rfl, by decide, rfl, rfl⟩

/-- Counterexample to C9 as stated: license 4 is stored revoked with reason
non-payment, revoked at 100; a second `revoke_license` call on it succeeds
and overwrites both `revocation_reason` and `revoked_at` — the revoked
record is not immutable under every operation. -/
theorem rerevocation_mutates_revoked_record_cex :
    dbRev.licenses.find? (fun l => l.id == 4) = some licRevokedExpired
    ∧ licRevokedExpired.revoked = true
    ∧ (revoke_license dbRev 4 "changed reason" "admin" 777).1.licenses.find?
        (fun l => l.id == 4) =
        some (revokeMutate "changed reason" 777 licRevokedExpired)
    ∧ (revokeMutate "changed reason" 777 licRevokedExpired).revocation_reason ≠
        licRevokedExpired.revocation_reason
    ∧ (revokeMutate "changed reason" 777 licRevokedExpired).revoked_at ≠
        licRevokedExpired.revoked_at := by
  refine ⟨by decide, by decide, by decide, by decide, by decide⟩

/-- Claim C9 as amended: once a stored license has `revoked = true`, no
operation of the subsystem resets `revoked` or changes `expires_at` (or any
other field except through re-revocation): `validate_license_key` never
mutates the licenses table at all, `generate_license` leaves the stored row
findable and unchanged, `extend_license` always fails on it and returns the
store untouched — but `revoke_license` called again does succeed and
overwrites exactly `revoked_at` and `revocation_reason` (appending a fresh
audit entry), keeping `revoked = true` and every other field intact. -/
theorem revoked_record_frozen (db : DB) (id : Nat) (lic : LicenseRow)
    (hfind : db.licenses.find? (fun l => l.id == id) = some lic)
    (hrev : lic.revoked = true) :
    (∀ (t : Token) (iid hf : Option String) (now : Int),
       (validate_license_key db t iid hf now).1.licenses = db.licenses)
    ∧ (∀ (li : LicenseCreate) (pb : String) (now : Int),
        (generate_license db li pb now).1.licenses.find?
          (fun l => l.id == id) = some lic)
    ∧ (∀ (d : Int) (pb : String) (now : Int),
        extend_license db id d pb now =
          (db, .error "Cannot extend a revoked license"))
    ∧ (∀ (reason pb : String) (now : Int),
        (revoke_license db id reason pb now).1.licenses.find?
          (fun l => l.id == id) = some (revokeMutate reason now lic)
        ∧ (revokeMutate reason now lic).revoked = true
        ∧ (revokeMutate reason now lic).expires_at = lic.expires_at
        ∧ (revokeMutate reason now lic).key_string = lic.key_string
        ∧ (revokeMutate reason now lic).max_employees = lic.max_employees
        ∧ (revokeMutate reason now lic).revoked_at = some now
        ∧ (revokeMutate reason now lic).revocation_reason = some reason) := by
  refine ⟨?_, ?_, ?_, ?_⟩
  · intro t iid hf now
    exact validate_preserves_licenses db t iid hf now
  · intro li pb now
    cases hten : db.tenants.find? (fun t => t.id == li.tenant_id) with
    | none =>
      rw [generate_license_notfound db li pb now hten]
      exact hfind
    | some tenant =>
      rw [generate_license_found db li pb now tenant hten]
      exact find?_append_of_some db.licenses _ _ lic hfind
  · intro d pb now
    exact extend_license_revoked db id d pb now lic hfind hrev
  · intro reason pb now
    refine ⟨?_, rfl, rfl, rfl, rfl, rfl, rfl⟩
    rw [revoke_license_found db id reason pb now lic hfind]
    show (updateLicense db.licenses id (revokeMutate reason now)).find?
      (fun l => l.id == id) = _
    rw [updateLicense_find? db.licenses id (revokeMutate reason now) (fun l => rfl),
        hfind]
    rfl

/-- Witness for the amended C9, on the revoked license 4: validation leaves
the licenses table untouched, a fresh issuance keeps row 4 intact,
extension fails with the store unchanged, and re-revocation rewrites only
the revocation metadata. -/
theorem revoked_record_frozen_witness :
    (validate_license_key dbRev tokDiverged none none 1000).1.licenses =
        dbRev.licenses
    ∧ (generate_license dbRev li0 "system" 2000).1.licenses.find?
        (fun l => l.id == 4) = some licRevokedExpired
    ∧ extend_license dbRev 4 9 "admin" 2000 =
        (dbRev, .error "Cannot extend a revoked license")
    ∧ ((revoke_license dbRev 4 "again" "admin" 2000).1.licenses.find?
          (fun l => l.id == 4) =
            some (revokeMutate "again" 2000 licRevokedExpired)
        ∧ (revokeMutate "again" 2000 licRevokedExpired).revoked = true
        ∧ (revokeMutate "again" 2000 licRevokedExpired).expires_at =
            licRevokedExpired.expires_at
        ∧ (revokeMutate "again" 2000 licRevokedExpired).key_string =
            licRevokedExpired.key_string
        ∧ (revokeMutate "again" 2000 licRevokedExpired).max_employees =
            licRevokedExpired.max_employees
        ∧ (revokeMutate "again" 2000 licRevokedExpired).revoked_at = some 2000
        ∧ (revokeMutate "again" 2000 licRevokedExpired).revocation_reason =
            some "again") :=
  ⟨(revoked_record_frozen dbRev 4 licRevokedExpired (by decide) (by decide)).1
      tokDiverged none none 1000,
   (revoked_record_frozen dbRev 4 licRevokedExpired (by decide) (by decide)).2.1
      li0 "system" 2000,
   (revoked_record_frozen dbRev 4 licRevokedExpired (by decide) (by decide)).2.2.1
      9 "admin" 2000,
   (revoked_record_frozen dbRev 4 licRevokedExpired (by decide) (by decide)).2.2.2
      "again" "admin" 2000⟩

end ChurnVision
